import Mathlib

/-!
# Verification of the seroost request-serving layer

Shallow embedding of `src/server/src/server.rs`: the routing of HTTP
method/path pairs to handlers, the mutex discipline around the shared
search index, the response-encoding contract, and the accept loop's
failure isolation.  Handlers are embedded as pure functions from a
request to an ordered trace of observable events (body read, log lines,
mutex acquire/release, index accesses, the socket write of the response)
together with the `io::Result` value the handler returns.
-/

set_option autoImplicit false

namespace Seroost

/-- HTTP methods, mirroring the `tiny_http::Method` enum used by the router
(`serve_request` matches on it by exact enum comparison). -/
inductive Method where
  | Get
  | Head
  | Post
  | Put
  | Delete
  | Connect
  | Options
  | Trace
  | Patch
  | NonStandard (s : String)
  deriving DecidableEq, Repr

/-- Debug rendering of a method, as used by the `INFO: received request!`
log line (Rust's derived `Debug` formatting). -/
def methodDebug : Method → String
  | Method.Get => "Get"
  | Method.Head => "Head"
  | Method.Post => "Post"
  | Method.Put => "Put"
  | Method.Delete => "Delete"
  | Method.Connect => "Connect"
  | Method.Options => "Options"
  | Method.Trace => "Trace"
  | Method.Patch => "Patch"
  | Method.NonStandard s => "NonStandard(" ++ s ++ ")"

/-- A response body: `tiny_http` responses are built either from a string
(`Response::from_string`) or from raw bytes (`Response::from_data`). -/
inductive RespBody where
  | ofString (s : String)
  | ofBytes (b : List Nat)
  deriving DecidableEq, Repr

/-- An HTTP response as assembled by the serving layer: status code,
header list, body. -/
structure HttpResponse where
  status : Nat
  headers : List (String × String)
  body : RespBody
  deriving DecidableEq, Repr

/-- Default content type that `tiny_http`'s `Response::from_string`
attaches to every string response. -/
def text_plain_default : String := "text/plain; charset=UTF-8"

/-- Embeds `tiny_http`'s `Response::from_string`: status 200, the default
text/plain content type, the string as body. -/
def Response.from_string (s : String) : HttpResponse :=
  { status := 200
    headers := [("Content-Type", text_plain_default)]
    body := RespBody.ofString s }

/-- Embeds `tiny_http`'s `Response::from_data`: status 200, no headers, raw bytes
as body. -/
def Response.from_data (b : List Nat) : HttpResponse :=
  { status := 200, headers := [], body := RespBody.ofBytes b }

/-- Embeds `tiny_http`'s `Response::with_status_code`. -/
def HttpResponse.with_status_code (r : HttpResponse) (c : Nat) : HttpResponse :=
  { r with status := c }

/-- Embeds `tiny_http`'s `Response::with_header` / `add_header`: a Content-Type
header overwrites the value of an already-present Content-Type header
(the responses built here carry at most one), any other header is
appended. -/
def HttpResponse.with_header (r : HttpResponse) (field value : String) : HttpResponse :=
  if field = "Content-Type" ∧ r.headers.any (fun h => h.1 = "Content-Type") then
    { r with headers := r.headers.map (fun h => if h.1 = "Content-Type" then (h.1, value) else h) }
  else
    { r with headers := r.headers ++ [(field, value)] }

/-- One ranked search result.  Modelled from the spec: the Index returns an
ordered sequence of `(location, score)` pairs; `seroost_lib::model` is not
under `src/`, so the result type follows the spec's `SearchResult`
(`location` a string, `score` a number, here an integer stand-in). -/
structure SearchResult where
  location : String
  score : Int
  deriving DecidableEq, Repr

/-- Modelled from the spec: the external Index (`seroost_lib::model::Model`,
not under `src/`).  It owns a mapping from document location to document
metadata (`docs`) and a mapping from term to document frequency (`df`),
and exposes `search_query` returning a ranked result sequence. -/
structure Model where
  docs : List (String × String)
  df : List (String × Nat)
  search_fn : List Char → List SearchResult

/-- Modelled from the spec: `Model::search_query(&self, query: &[char])`
returns the Index's ranked result sequence for the query. -/
def Model.search_query (m : Model) (q : List Char) : List SearchResult :=
  m.search_fn q

/-- An inbound HTTP request together with the outcomes of its two transport
interactions: `read_body` is the result of `request.as_reader().read_to_end`
(error carries the io error's display text), `respond_result` is the
`io::Result` of `request.respond` writing the response to the socket. -/
structure Request where
  method : Method
  url : String
  read_body : Except String (List Nat)
  respond_result : Except String Unit
  deriving Repr

/-- Decidable equality for `Except`, needed to compare transport outcomes
and event traces. -/
instance {ε α : Type} [DecidableEq ε] [DecidableEq α] : DecidableEq (Except ε α)
  | Except.error e, Except.error f =>
    if h : e = f then Decidable.isTrue (by rw [h])
    else Decidable.isFalse (fun hc => h (by injection hc))
  | Except.error _, Except.ok _ => Decidable.isFalse (fun hc => Except.noConfusion hc)
  | Except.ok _, Except.error _ => Decidable.isFalse (fun hc => Except.noConfusion hc)
  | Except.ok x, Except.ok y =>
    if h : x = y then Decidable.isTrue (by rw [h])
    else Decidable.isFalse (fun hc => h (by injection hc))

/-- Observable events of one request's handling, in program order:
transport body read, stderr/stdout log lines, mutex acquire (`lock`) and
release (`unlock`, the guard drop), the index accesses performed under the
mutex, and the socket write of a response with its io outcome. -/
inductive Event where
  | readBody (r : Except String (List Nat))
  | logInfo (s : String)
  | logErr (s : String)
  | lock
  | unlock
  | searchQuery (q : List Char)
  | readCounts (docs terms : Nat)
  | respond (r : HttpResponse) (res : Except String Unit)
  deriving DecidableEq, Repr

/-- A handler's outcome: its ordered event trace and the `io::Result<()>`
it returns to the dispatch loop. -/
def HandlerResult : Type := List Event × Except String Unit

/-- Prepend events that happen before the embedded sub-computation. -/
def prependEvents (es : List Event) (p : HandlerResult) : HandlerResult :=
  (es ++ p.1, p.2)

/-- Append events that happen after the embedded sub-computation (used for
the mutex guard drop at the end of a Rust scope). -/
def appendEvents (p : HandlerResult) (es : List Event) : HandlerResult :=
  (p.1 ++ es, p.2)

/-- Embeds `request.respond(r)`: the socket write of response `r`; its io outcome
is the request's `respond_result`. -/
def respondTo (request : Request) (r : HttpResponse) : HandlerResult :=
  ([Event.respond r request.respond_result], request.respond_result)

/-- Embeds `serve_404`: respond with status 404 and body `"404"`. -/
def serve_404 (request : Request) : HandlerResult :=
  respondTo request ((Response.from_string "404").with_status_code 404)

/-- Embeds `serve_500`: respond with status 500 and body `"500"`. -/
def serve_500 (request : Request) : HandlerResult :=
  respondTo request ((Response.from_string "500").with_status_code 500)

/-- Embeds `serve_400`: respond with status 400 and body `"400: <message>"`. -/
def serve_400 (request : Request) (message : String) : HandlerResult :=
  respondTo request ((Response.from_string ("400: " ++ message)).with_status_code 400)

/-- Embeds `serve_bytes`: respond with the given bytes and an explicit
Content-Type header. -/
def serve_bytes (request : Request) (bytes : List Nat) (content_type : String) : HandlerResult :=
  respondTo request ((Response.from_data bytes).with_header "Content-Type" content_type)

/-- A continuation byte `0x80..=0xBF` of a multi-byte UTF-8 sequence. -/
def isCont (b : Nat) : Bool := decide (0x80 ≤ b) && decide (b ≤ 0xBF)

/-- UTF-8 validation and decoding of a byte sequence, as performed by
`str::from_utf8` followed by `.chars()`: standard RFC 3629 UTF-8
(overlong encodings, surrogates and code points above `0x10FFFF`
rejected).  Returns `none` exactly when `str::from_utf8` errors. -/
def utf8Decode? : List Nat → Option (List Char)
  | [] => some []
  | b0 :: rest =>
    if b0 ≤ 0x7F then
      (utf8Decode? rest).map (fun cs => Char.ofNat b0 :: cs)
    else if 0xC2 ≤ b0 ∧ b0 ≤ 0xDF then
      match rest with
      | b1 :: rest1 =>
        if isCont b1 then
          (utf8Decode? rest1).map (fun cs => Char.ofNat ((b0 - 0xC0) * 0x40 + (b1 - 0x80)) :: cs)
        else none
      | [] => none
    else if 0xE0 ≤ b0 ∧ b0 ≤ 0xEF then
      match rest with
      | b1 :: b2 :: rest2 =>
        if (if b0 = 0xE0 then decide (0xA0 ≤ b1) && decide (b1 ≤ 0xBF)
            else if b0 = 0xED then decide (0x80 ≤ b1) && decide (b1 ≤ 0x9F)
            else isCont b1) && isCont b2 then
          (utf8Decode? rest2).map (fun cs =>
            Char.ofNat ((b0 - 0xE0) * 0x1000 + (b1 - 0x80) * 0x40 + (b2 - 0x80)) :: cs)
        else none
      | _ => none
    else if 0xF0 ≤ b0 ∧ b0 ≤ 0xF4 then
      match rest with
      | b1 :: b2 :: b3 :: rest3 =>
        if (if b0 = 0xF0 then decide (0x90 ≤ b1) && decide (b1 ≤ 0xBF)
            else if b0 = 0xF4 then decide (0x80 ≤ b1) && decide (b1 ≤ 0x8F)
            else isCont b1) && isCont b2 && isCont b3 then
          (utf8Decode? rest3).map (fun cs =>
            Char.ofNat ((b0 - 0xF0) * 0x40000 + (b1 - 0x80) * 0x1000 +
              (b2 - 0x80) * 0x40 + (b3 - 0x80)) :: cs)
        else none
      | _ => none
    else none

/-- Lower-case hexadecimal digit. -/
def hexDigit (n : Nat) : Char :=
  if n < 10 then Char.ofNat (48 + n) else Char.ofNat (87 + n)

/-- JSON escaping of a single character, following `serde_json`'s string
escaping: quote and backslash are escaped, control characters use the
short escapes or a `\u00XX` escape, everything else is kept verbatim. -/
def jsonEscapeChar (c : Char) : String :=
  if c = '"' then "\\\""
  else if c = '\\' then "\\\\"
  else if c.toNat = 8 then "\\b"
  else if c.toNat = 9 then "\\t"
  else if c.toNat = 10 then "\\n"
  else if c.toNat = 12 then "\\f"
  else if c.toNat = 13 then "\\r"
  else if c.toNat < 32 then
    "\\u00" ++ String.mk [hexDigit (c.toNat / 16), hexDigit (c.toNat % 16)]
  else String.mk [c]

/-- A JSON string literal for `s`. -/
def jsonString (s : String) : String :=
  "\"" ++ String.join (s.data.map jsonEscapeChar) ++ "\""

/-- JSON object for one search result. -/
def searchResultJson (r : SearchResult) : String :=
  "\x7b\"location\":" ++ jsonString r.location ++ ",\"score\":" ++ toString r.score ++ "\x7d"

/-- JSON array for a sequence of search results, in sequence order. -/
def searchResultsJson (rs : List SearchResult) : String :=
  "[" ++ String.intercalate "," (rs.map searchResultJson) ++ "]"

/-- JSON object for the `Stats` struct of `serve_api_stats`
(`docs_count`, `terms_count`). -/
def statsJson (docs_count terms_count : Nat) : String :=
  "\x7b\"docs_count\":" ++ toString docs_count ++ ",\"terms_count\":" ++ toString terms_count ++ "\x7d"

/-- Modelled from the spec: `serde_json::to_string` of the truncated result
sequence.  Serialization "should not occur [to fail] for well-formed data";
with string locations and numeric scores it always succeeds, but the
fallible shape (`serde_json::Result`) is kept so the handler's 500 branch
is embedded. -/
def serde_json_to_string_results (rs : List SearchResult) : Except String String :=
  Except.ok (searchResultsJson rs)

/-- Modelled from the spec: `serde_json::to_string` of the `Stats` struct;
always succeeds for a plain struct of two integers, fallible shape kept. -/
def serde_json_to_string_stats (docs_count terms_count : Nat) : Except String String :=
  Except.ok (statsJson docs_count terms_count)

/-- Embeds `serve_api_search`: read the whole body (500 on transport failure),
decode it as UTF-8 (400 on failure), then lock the model, run
`search_query`, serialize the first 20 results and respond 200 with
`application/json`.  The mutex guard is dropped at the end of the Rust
function, so on the paths entered after `model.lock()` the `unlock`
event comes after the `respond` event. -/
def serve_api_search (model : Model) (request : Request) : HandlerResult :=
  match request.read_body with
  | Except.error err =>
    prependEvents
      [Event.readBody (Except.error err),
       Event.logErr ("ERROR: could not read the body of the request: " ++ err)]
      (serve_500 request)
  | Except.ok buf =>
    match utf8Decode? buf with
    | none =>
      prependEvents
        [Event.readBody (Except.ok buf),
         Event.logErr "ERROR: could not interpret body as UTF-8 string"]
        (serve_400 request "Body must be a valid UTF-8 string")
    | some body =>
      match serde_json_to_string_results ((model.search_query body).take 20) with
      | Except.error err =>
        appendEvents
          (prependEvents
            [Event.readBody (Except.ok buf), Event.lock, Event.searchQuery body,
             Event.logErr ("ERROR: could not convert search results to JSON: " ++ err)]
            (serve_500 request))
          [Event.unlock]
      | Except.ok json =>
        appendEvents
          (prependEvents
            [Event.readBody (Except.ok buf), Event.lock, Event.searchQuery body]
            (respondTo request
              ((Response.from_string json).with_header "Content-Type" "application/json")))
          [Event.unlock]

/-- Embeds `serve_api_stats`: lock the model inside an inner scope, read
`docs.len()` and `df.len()` as one snapshot, drop the guard, serialize the
`Stats` struct and respond 200 with `application/json`. -/
def serve_api_stats (model : Model) (request : Request) : HandlerResult :=
  match serde_json_to_string_stats model.docs.length model.df.length with
  | Except.error err =>
    prependEvents
      [Event.lock, Event.readCounts model.docs.length model.df.length, Event.unlock,
       Event.logErr ("ERROR: could not convert stats results to JSON: " ++ err)]
      (serve_500 request)
  | Except.ok json =>
    prependEvents
      [Event.lock, Event.readCounts model.docs.length model.df.length, Event.unlock]
      (respondTo request
        ((Response.from_string json).with_header "Content-Type" "application/json"))

/-- Modelled from the spec: the embedded HTML asset served for `/` and
`/index.html` — an opaque build-time byte blob (the asset file is not
under `src/`); a representative byte list stands in for its contents. -/
def index_html_bytes : List Nat := [60, 104, 116, 109, 108, 62]

/-- Modelled from the spec: the embedded script asset served for
`/index.js` — an opaque build-time byte blob, represented likewise. -/
def index_js_bytes : List Nat := [47, 47, 106, 115]

/-- The `INFO: received request!` log line printed for every inbound
request (Rust `Debug` formatting of the method and the url). -/
def requestLogLine (request : Request) : String :=
  "INFO: received request! method: " ++ methodDebug request.method ++
    ", url: \"" ++ request.url ++ "\""

/-- Embeds `serve_request`: log the request line, then route by exact enum
comparison on the method and exact string comparison on the full url
(mirroring the Rust `match` arm by arm, in order), falling through
to `serve_404`. -/
def serve_request (model : Model) (request : Request) : HandlerResult :=
  prependEvents [Event.logInfo (requestLogLine request)]
    (if request.method = Method.Post ∧ request.url = "/api/search" then
      serve_api_search model request
    else if request.method = Method.Get ∧ request.url = "/api/stats" then
      serve_api_stats model request
    else if request.method = Method.Get ∧ request.url = "/index.js" then
      serve_bytes request index_js_bytes "text/javascript; charset=utf-8"
    else if request.method = Method.Get ∧ (request.url = "/" ∨ request.url = "/index.html") then
      serve_bytes request index_html_bytes "text/html; charset=utf-8"
    else
      serve_404 request)

/-- The listening server: its serial stream of inbound requests
(`incoming_requests`); the stream ending models the listening socket
failing. -/
structure ServerHandle where
  incoming_requests : List Request

/-- The body of `start`'s `for request in server.incoming_requests()` loop:
each request is dispatched through `serve_request`; an `Err` from the
handler is logged and discarded (`.map_err(..).ok()`) and the loop
continues with the next request. -/
def serveLoop (model : Model) : List Request → List Event
  | [] => []
  | request :: rest =>
    (serve_request model request).1 ++
      (match (serve_request model request).2 with
       | Except.error err => [Event.logErr ("ERROR: could not serve the response: " ++ err)]
       | Except.ok _ => []) ++
      serveLoop model rest

/-- Embeds `start`: bind the address (`Server::http`); on bind failure log a fatal
error and return `Err(())`.  Otherwise log the listening line, run the
serve loop over the whole request stream, and when the stream ends (the
listening socket has failed) log the shutdown error and return `Err(())`. -/
def start (address : String) (model : Model) (http_result : Except String ServerHandle) :
    List Event × Except Unit Unit :=
  match http_result with
  | Except.error err =>
    ([Event.logErr ("ERROR: could not start HTTP server at " ++ address ++ ": " ++ err)],
     Except.error ())
  | Except.ok server =>
    (Event.logInfo ("INFO: listening at http://" ++ address ++ "/") ::
      (serveLoop model server.incoming_requests ++
        [Event.logErr "ERROR: the server socket has shutdown"]),
     Except.error ())

/-- The responses written to the socket during a trace, in order, each with
the io outcome of its write. -/
def respondEvents (tr : List Event) : List (HttpResponse × Except String Unit) :=
  tr.filterMap (fun e =>
    match e with
    | Event.respond r res => some (r, res)
    | _ => none)

/-- The mutex acquisitions in a trace are well nested starting from depth
`d`: every release has a matching acquisition and the trace ends at depth
zero (the handle is released on every path). -/
def balancedFrom (d : Nat) : List Event → Bool
  | [] => d == 0
  | Event.lock :: tr => balancedFrom (d + 1) tr
  | Event.unlock :: tr => decide (0 < d) && balancedFrom (d - 1) tr
  | _ :: tr => balancedFrom d tr

/-- No acquisition of the mutex happens while it is already held
(no re-entrant acquisition), starting from depth `d`. -/
def noReentrantFrom (d : Nat) : List Event → Bool
  | [] => true
  | Event.lock :: tr => d == 0 && noReentrantFrom (d + 1) tr
  | Event.unlock :: tr => noReentrantFrom (d - 1) tr
  | _ :: tr => noReentrantFrom d tr

/-- Some transport body read happens while the mutex is held (depth
positive), starting from depth `d`. -/
def readWhileLockedFrom (d : Nat) : List Event → Bool
  | [] => false
  | Event.lock :: tr => readWhileLockedFrom (d + 1) tr
  | Event.unlock :: tr => readWhileLockedFrom (d - 1) tr
  | Event.readBody _ :: tr => decide (0 < d) || readWhileLockedFrom d tr
  | _ :: tr => readWhileLockedFrom d tr

/-- Some socket write of a response happens while the mutex is held (depth
positive), starting from depth `d`. -/
def respondWhileLockedFrom (d : Nat) : List Event → Bool
  | [] => false
  | Event.lock :: tr => respondWhileLockedFrom (d + 1) tr
  | Event.unlock :: tr => respondWhileLockedFrom (d - 1) tr
  | Event.respond _ _ :: tr => decide (0 < d) || respondWhileLockedFrom d tr
  | _ :: tr => respondWhileLockedFrom d tr

/-- A small concrete Index instance used to exercise the serving layer on
closed inputs: one document, two terms, a ranked two-result answer for any
non-empty query. -/
def modelA : Model :=
  { docs := [("docA", "meta")]
    df := [("term", 2), ("word", 1)]
    search_fn := fun q =>
      if q = [] then []
      else [{ location := "a.md", score := 9 }, { location := "b.md", score := 4 }] }

/-- A well-formed search request whose body is the UTF-8 bytes of `"hi"`. -/
def reqSearchOk : Request :=
  ⟨Method.Post, "/api/search", Except.ok [104, 105], Except.ok ()⟩

/-- A search request whose body byte `0xFF` is not valid UTF-8. -/
def reqSearchBadUtf8 : Request :=
  ⟨Method.Post, "/api/search", Except.ok [255], Except.ok ()⟩

/-- A search request whose transport body read fails. -/
def reqSearchReadFail : Request :=
  ⟨Method.Post, "/api/search", Except.error "connection reset by peer", Except.ok ()⟩

/-- A stats request. -/
def reqStats : Request :=
  ⟨Method.Get, "/api/stats", Except.ok [], Except.ok ()⟩

/-- A stats request whose response write to the socket fails. -/
def reqStatsWriteFail : Request :=
  ⟨Method.Get, "/api/stats", Except.ok [], Except.error "broken pipe"⟩

/-- A request for the root static page. -/
def reqRoot : Request :=
  ⟨Method.Get, "/", Except.ok [], Except.ok ()⟩

/-- A request for the explicit `/index.html` alias. -/
def reqIndexHtml : Request :=
  ⟨Method.Get, "/index.html", Except.ok [], Except.ok ()⟩

/-- A request for the embedded script. -/
def reqIndexJs : Request :=
  ⟨Method.Get, "/index.js", Except.ok [], Except.ok ()⟩

/-- A request outside the five known routes. -/
def reqUnknown : Request :=
  ⟨Method.Get, "/unknown", Except.ok [], Except.ok ()⟩

/-- A stats request with a query string appended to the url. -/
def reqStatsQuery : Request :=
  ⟨Method.Get, "/api/stats?x=1", Except.ok [], Except.ok ()⟩

/-- The response contract of the serving layer for one request, as amended:
every response carries a status from 200/400/404/500; a 200 response on an
API route carries `application/json`; a non-200 response carries the
`from_string` default text/plain content type; static responses carry the
fixed content type of their asset. -/
def ResponseContract (req : Request) (p : HttpResponse × Except String Unit) : Prop :=
  (p.1.status = 200 ∨ p.1.status = 400 ∨ p.1.status = 404 ∨ p.1.status = 500) ∧
  (p.1.status = 200 →
    ((req.method = Method.Post ∧ req.url = "/api/search") ∨
     (req.method = Method.Get ∧ req.url = "/api/stats")) →
    p.1.headers = [("Content-Type", "application/json")]) ∧
  (p.1.status ≠ 200 → p.1.headers = [("Content-Type", text_plain_default)]) ∧
  ((req.method = Method.Get ∧ req.url = "/index.js") →
    p.1.headers = [("Content-Type", "text/javascript; charset=utf-8")]) ∧
  ((req.method = Method.Get ∧ (req.url = "/" ∨ req.url = "/index.html")) →
    p.1.headers = [("Content-Type", "text/html; charset=utf-8")])

instance (req : Request) (p : HttpResponse × Except String Unit) :
    Decidable (ResponseContract req p) := by
  unfold ResponseContract; infer_instance

/-! ## Helper lemmas about the embedded serving layer -/

theorem from_string_json_header (s : String) :
    (Response.from_string s).with_header "Content-Type" "application/json" =
      ⟨200, [("Content-Type", "application/json")], RespBody.ofString s⟩ := rfl

theorem serve_bytes_eq (req : Request) (bytes : List Nat) (ct : String) :
    serve_bytes req bytes ct =
      ([Event.respond ⟨200, [("Content-Type", ct)], RespBody.ofBytes bytes⟩ req.respond_result],
       req.respond_result) := rfl

theorem serve_request_post_search (m : Model) (req : Request)
    (hm : req.method = Method.Post) (hu : req.url = "/api/search") :
    serve_request m req =
      prependEvents [Event.logInfo (requestLogLine req)] (serve_api_search m req) := by
  unfold serve_request
  rw [if_pos ⟨hm, hu⟩]

theorem serve_request_get_stats (m : Model) (req : Request)
    (hm : req.method = Method.Get) (hu : req.url = "/api/stats") :
    serve_request m req =
      prependEvents [Event.logInfo (requestLogLine req)] (serve_api_stats m req) := by
  unfold serve_request
  rw [if_neg (by rw [hm, hu]; decide), if_pos ⟨hm, hu⟩]

theorem serve_request_get_js (m : Model) (req : Request)
    (hm : req.method = Method.Get) (hu : req.url = "/index.js") :
    serve_request m req =
      prependEvents [Event.logInfo (requestLogLine req)]
        (serve_bytes req index_js_bytes "text/javascript; charset=utf-8") := by
  unfold serve_request
  rw [if_neg (by rw [hm, hu]; decide), if_neg (by rw [hm, hu]; decide), if_pos ⟨hm, hu⟩]

theorem serve_request_get_html (m : Model) (req : Request)
    (hm : req.method = Method.Get) (hu : req.url = "/" ∨ req.url = "/index.html") :
    serve_request m req =
      prependEvents [Event.logInfo (requestLogLine req)]
        (serve_bytes req index_html_bytes "text/html; charset=utf-8") := by
  unfold serve_request
  rcases hu with hu | hu <;>
    rw [if_neg (by rw [hm, hu]; decide), if_neg (by rw [hm, hu]; decide),
      if_neg (by rw [hm, hu]; decide), if_pos ⟨hm, by rw [hu]; decide⟩]

theorem serve_request_unmatched (m : Model) (req : Request)
    (h1 : ¬(req.method = Method.Post ∧ req.url = "/api/search"))
    (h2 : ¬(req.method = Method.Get ∧ req.url = "/api/stats"))
    (h3 : ¬(req.method = Method.Get ∧ req.url = "/index.js"))
    (h4 : ¬(req.method = Method.Get ∧ (req.url = "/" ∨ req.url = "/index.html"))) :
    serve_request m req =
      ([Event.logInfo (requestLogLine req),
        Event.respond ⟨404, [("Content-Type", text_plain_default)], RespBody.ofString "404"⟩
          req.respond_result],
       req.respond_result) := by
  unfold serve_request
  rw [if_neg h1, if_neg h2, if_neg h3, if_neg h4]
  rfl

theorem serve_api_search_read_fail_eq (m : Model) (req : Request) (err : String)
    (hb : req.read_body = Except.error err) :
    serve_api_search m req =
      ([Event.readBody (Except.error err),
        Event.logErr ("ERROR: could not read the body of the request: " ++ err),
        Event.respond ⟨500, [("Content-Type", text_plain_default)], RespBody.ofString "500"⟩
          req.respond_result],
       req.respond_result) := by
  simp [serve_api_search, hb, prependEvents, serve_500, respondTo,
    Response.from_string, HttpResponse.with_status_code]

theorem serve_api_search_bad_utf8_eq (m : Model) (req : Request) (buf : List Nat)
    (hb : req.read_body = Except.ok buf) (hd : utf8Decode? buf = none) :
    serve_api_search m req =
      ([Event.readBody (Except.ok buf),
        Event.logErr "ERROR: could not interpret body as UTF-8 string",
        Event.respond ⟨400, [("Content-Type", text_plain_default)],
          RespBody.ofString "400: Body must be a valid UTF-8 string"⟩ req.respond_result],
       req.respond_result) := by
  simp [serve_api_search, hb, hd, prependEvents, serve_400, respondTo,
    Response.from_string, HttpResponse.with_status_code]

theorem serve_api_search_ok_eq (m : Model) (req : Request) (buf : List Nat) (body : List Char)
    (hb : req.read_body = Except.ok buf) (hd : utf8Decode? buf = some body) :
    serve_api_search m req =
      ([Event.readBody (Except.ok buf), Event.lock, Event.searchQuery body,
        Event.respond ⟨200, [("Content-Type", "application/json")],
          RespBody.ofString (searchResultsJson ((m.search_query body).take 20))⟩
          req.respond_result,
        Event.unlock],
       req.respond_result) := by
  simp [serve_api_search, hb, hd, prependEvents, appendEvents, respondTo,
    serde_json_to_string_results, from_string_json_header]

theorem serve_api_stats_eq (m : Model) (req : Request) :
    serve_api_stats m req =
      ([Event.lock, Event.readCounts m.docs.length m.df.length, Event.unlock,
        Event.respond ⟨200, [("Content-Type", "application/json")],
          RespBody.ofString (statsJson m.docs.length m.df.length)⟩ req.respond_result],
       req.respond_result) := rfl

theorem serve_request_locks_balanced (m : Model) (req : Request) :
    balancedFrom 0 (serve_request m req).1 = true ∧
    noReentrantFrom 0 (serve_request m req).1 = true ∧
    readWhileLockedFrom 0 (serve_request m req).1 = false := by
  obtain ⟨meth, url, rb, rr⟩ := req
  unfold serve_request
  split_ifs with h1 h2 h3 h4
  case pos =>
    cases rb with
    | error e =>
      refine ⟨?_, ?_, ?_⟩ <;>
        simp [serve_api_search, serve_500, respondTo, prependEvents,
          balancedFrom, noReentrantFrom, readWhileLockedFrom]
    | ok buf =>
      cases hd : utf8Decode? buf with
      | none =>
        refine ⟨?_, ?_, ?_⟩ <;>
          simp [serve_api_search, hd, serve_400, respondTo, prependEvents,
            balancedFrom, noReentrantFrom, readWhileLockedFrom]
      | some body =>
        refine ⟨?_, ?_, ?_⟩ <;>
          simp [serve_api_search, hd, serde_json_to_string_results, respondTo,
            prependEvents, appendEvents,
            balancedFrom, noReentrantFrom, readWhileLockedFrom]
  case pos =>
    refine ⟨?_, ?_, ?_⟩ <;>
      simp [serve_api_stats_eq, prependEvents,
        balancedFrom, noReentrantFrom, readWhileLockedFrom]
  case pos =>
    refine ⟨?_, ?_, ?_⟩ <;>
      simp [serve_bytes_eq, prependEvents,
        balancedFrom, noReentrantFrom, readWhileLockedFrom]
  case pos =>
    refine ⟨?_, ?_, ?_⟩ <;>
      simp [serve_bytes_eq, prependEvents,
        balancedFrom, noReentrantFrom, readWhileLockedFrom]
  case neg =>
    refine ⟨?_, ?_, ?_⟩ <;>
      simp [serve_404, respondTo, prependEvents,
        balancedFrom, noReentrantFrom, readWhileLockedFrom]

theorem serve_request_lock_requires_parse (m : Model) (req : Request) :
    Event.lock ∈ (serve_request m req).1 →
      (req.method = Method.Post ∧ req.url = "/api/search" ∧
        ∃ buf body, req.read_body = Except.ok buf ∧ utf8Decode? buf = some body) ∨
      (req.method = Method.Get ∧ req.url = "/api/stats") := by
  obtain ⟨meth, url, rb, rr⟩ := req
  unfold serve_request
  split_ifs with h1 h2 h3 h4
  case pos =>
    cases rb with
    | error e =>
      intro hmem
      simp [serve_api_search, serve_500, respondTo, prependEvents] at hmem
    | ok buf =>
      cases hd : utf8Decode? buf with
      | none =>
        intro hmem
        simp [serve_api_search, hd, serve_400, respondTo, prependEvents] at hmem
      | some body =>
        intro _
        exact Or.inl ⟨h1.1, h1.2, buf, body, rfl, hd⟩
  case pos =>
    intro _
    exact Or.inr h2
  case pos =>
    intro hmem
    simp [serve_bytes_eq, prependEvents] at hmem
  case pos =>
    intro hmem
    simp [serve_bytes_eq, prependEvents] at hmem
  case neg =>
    intro hmem
    simp [serve_404, respondTo, prependEvents] at hmem

theorem serve_api_stats_responds_after_unlock (m : Model) (req : Request) :
    respondWhileLockedFrom 0 (serve_api_stats m req).1 = false := by
  simp [serve_api_stats_eq, respondWhileLockedFrom]

theorem serve_api_search_responds_while_locked (m : Model) (req : Request)
    (buf : List Nat) (body : List Char)
    (hm : req.method = Method.Post) (hu : req.url = "/api/search")
    (hb : req.read_body = Except.ok buf) (hd : utf8Decode? buf = some body) :
    respondWhileLockedFrom 0 (serve_request m req).1 = true := by
  rw [serve_request_post_search m req hm hu, serve_api_search_ok_eq m req buf body hb hd]
  simp [prependEvents, respondWhileLockedFrom]

theorem respondEvents_append (a b : List Event) :
    respondEvents (a ++ b) = respondEvents a ++ respondEvents b :=
  List.filterMap_append a b _

theorem respondEvents_serve_request_length (m : Model) (req : Request) :
    (respondEvents (serve_request m req).1).length = 1 := by
  obtain ⟨meth, url, rb, rr⟩ := req
  unfold serve_request
  split_ifs with h1 h2 h3 h4
  case pos =>
    cases rb with
    | error e =>
      simp [serve_api_search, serve_500, respondTo, prependEvents, respondEvents]
    | ok buf =>
      cases hd : utf8Decode? buf with
      | none =>
        simp [serve_api_search, hd, serve_400, respondTo, prependEvents, respondEvents]
      | some body =>
        simp [serve_api_search, hd, serde_json_to_string_results, respondTo,
          prependEvents, appendEvents, respondEvents]
  case pos => simp [serve_api_stats_eq, prependEvents, respondEvents]
  case pos => simp [serve_bytes_eq, prependEvents, respondEvents]
  case pos => simp [serve_bytes_eq, prependEvents, respondEvents]
  case neg => simp [serve_404, respondTo, prependEvents, respondEvents]

theorem respondEvents_nil : respondEvents [] = [] := rfl

theorem respondEvents_logErr (s : String) : respondEvents [Event.logErr s] = [] := rfl

theorem respondEvents_logErr_cons (s : String) (tr : List Event) :
    respondEvents (Event.logErr s :: tr) = respondEvents tr := rfl

theorem respondEvents_logInfo_cons (s : String) (tr : List Event) :
    respondEvents (Event.logInfo s :: tr) = respondEvents tr := rfl

theorem respondEvents_serveLoop_length (m : Model) (reqs : List Request) :
    (respondEvents (serveLoop m reqs)).length = reqs.length := by
  induction reqs with
  | nil => rfl
  | cons a rest ih =>
    cases hres : (serve_request m a).2 <;>
      simp [serveLoop, hres, respondEvents_append, respondEvents_nil, respondEvents_logErr,
        respondEvents_logErr_cons, respondEvents_serve_request_length m a, ih, Nat.add_comm]

theorem serveLoop_logs_failure (m : Model) (reqs : List Request) (req : Request) (err : String)
    (hmem : req ∈ reqs) (hfail : (serve_request m req).2 = Except.error err) :
    Event.logErr ("ERROR: could not serve the response: " ++ err) ∈ serveLoop m reqs := by
  induction reqs with
  | nil => cases hmem
  | cons a rest ih =>
    rcases List.mem_cons.mp hmem with h | h
    · subst h
      simp [serveLoop, hfail]
    · simp [serveLoop, List.mem_append, ih h]

/-! ## Claim theorems -/

/-- C1: for every `POST /api/search` request whose body is valid UTF-8, and
for every result sequence the Index returns for that query, the handler
writes exactly one response: status 200, `application/json`, whose JSON
body is the serialization of the first `min(20, n)` elements of the
Index's returned sequence, in the Index's order, with no re-sorting. -/
theorem api_search_truncates_and_preserves_order (m : Model) (req : Request)
    (buf : List Nat) (body : List Char)
    (hm : req.method = Method.Post) (hu : req.url = "/api/search")
    (hb : req.read_body = Except.ok buf) (hd : utf8Decode? buf = some body) :
    respondEvents (serve_request m req).1 =
      [(⟨200, [("Content-Type", "application/json")],
         RespBody.ofString (searchResultsJson ((m.search_query body).take 20))⟩,
        req.respond_result)] := by
  rw [serve_request_post_search m req hm hu, serve_api_search_ok_eq m req buf body hb hd]
  rfl

/-- Witness for C1: the search request with body `"hi"` against the
concrete model, instantiated through the theorem. -/
theorem api_search_truncates_and_preserves_order_witness :
    respondEvents (serve_request modelA reqSearchOk).1 =
      [(⟨200, [("Content-Type", "application/json")],
         RespBody.ofString (searchResultsJson ((modelA.search_query ['h', 'i']).take 20))⟩,
        reqSearchOk.respond_result)] :=
  api_search_truncates_and_preserves_order modelA reqSearchOk [104, 105] ['h', 'i']
    rfl rfl rfl (by decide)

/-- C3: for every `POST /api/search` request whose body bytes are not valid
UTF-8, the handler responds 400 with body
`400: Body must be a valid UTF-8 string`, and the Index mutex is never
locked and `search_query` never invoked during that request. -/
theorem api_search_rejects_invalid_utf8 (m : Model) (req : Request) (buf : List Nat)
    (hm : req.method = Method.Post) (hu : req.url = "/api/search")
    (hb : req.read_body = Except.ok buf) (hd : utf8Decode? buf = none) :
    serve_request m req =
      ([Event.logInfo (requestLogLine req),
        Event.readBody (Except.ok buf),
        Event.logErr "ERROR: could not interpret body as UTF-8 string",
        Event.respond ⟨400, [("Content-Type", text_plain_default)],
          RespBody.ofString "400: Body must be a valid UTF-8 string"⟩ req.respond_result],
       req.respond_result) ∧
    Event.lock ∉ (serve_request m req).1 ∧
    (∀ q : List Char, Event.searchQuery q ∉ (serve_request m req).1) := by
  have htr : serve_request m req =
      ([Event.logInfo (requestLogLine req),
        Event.readBody (Except.ok buf),
        Event.logErr "ERROR: could not interpret body as UTF-8 string",
        Event.respond ⟨400, [("Content-Type", text_plain_default)],
          RespBody.ofString "400: Body must be a valid UTF-8 string"⟩ req.respond_result],
       req.respond_result) := by
    rw [serve_request_post_search m req hm hu, serve_api_search_bad_utf8_eq m req buf hb hd]
    rfl
  refine ⟨htr, ?_, ?_⟩
  · rw [htr]; simp
  · intro q; rw [htr]; simp

/-- Witness for C3: the request whose body byte `0xFF` is not UTF-8. -/
theorem api_search_rejects_invalid_utf8_witness :
    serve_request modelA reqSearchBadUtf8 =
      ([Event.logInfo (requestLogLine reqSearchBadUtf8),
        Event.readBody (Except.ok [255]),
        Event.logErr "ERROR: could not interpret body as UTF-8 string",
        Event.respond ⟨400, [("Content-Type", text_plain_default)],
          RespBody.ofString "400: Body must be a valid UTF-8 string"⟩
          reqSearchBadUtf8.respond_result],
       reqSearchBadUtf8.respond_result) ∧
    Event.lock ∉ (serve_request modelA reqSearchBadUtf8).1 ∧
    (∀ q : List Char, Event.searchQuery q ∉ (serve_request modelA reqSearchBadUtf8).1) :=
  api_search_rejects_invalid_utf8 modelA reqSearchBadUtf8 [255] rfl rfl rfl (by decide)

/-- C6: for every `GET /api/stats` request, the handler acquires the mutex
once, reads the document count and the term count under that single
acquisition as one snapshot, releases before serializing and responding,
and responds 200 with the JSON object of the Index's own counts; no
failure mode depends on client input (serialization, the only 500 source,
cannot fail here). -/
theorem api_stats_consistent_snapshot (m : Model) (req : Request)
    (hm : req.method = Method.Get) (hu : req.url = "/api/stats") :
    serve_request m req =
      ([Event.logInfo (requestLogLine req),
        Event.lock, Event.readCounts m.docs.length m.df.length, Event.unlock,
        Event.respond ⟨200, [("Content-Type", "application/json")],
          RespBody.ofString (statsJson m.docs.length m.df.length)⟩ req.respond_result],
       req.respond_result) := by
  rw [serve_request_get_stats m req hm hu, serve_api_stats_eq]
  rfl

/-- Witness for C6: the stats request against the concrete model with one
document and two terms. -/
theorem api_stats_consistent_snapshot_witness :
    serve_request modelA reqStats =
      ([Event.logInfo (requestLogLine reqStats),
        Event.lock, Event.readCounts modelA.docs.length modelA.df.length, Event.unlock,
        Event.respond ⟨200, [("Content-Type", "application/json")],
          RespBody.ofString (statsJson modelA.docs.length modelA.df.length)⟩
          reqStats.respond_result],
       reqStats.respond_result) :=
  api_stats_consistent_snapshot modelA reqStats rfl rfl

/-- C7: for every (method, path) pair outside the five exactly-matched
routes, the response is 404 with body `404`, and the trace holds nothing
besides the per-request log line and that fixed 404 response. -/
theorem router_unmatched_returns_404 (m : Model) (req : Request)
    (h : ¬ ((req.method = Method.Post ∧ req.url = "/api/search") ∨
            (req.method = Method.Get ∧ req.url = "/api/stats") ∨
            (req.method = Method.Get ∧ req.url = "/index.js") ∨
            (req.method = Method.Get ∧ (req.url = "/" ∨ req.url = "/index.html")))) :
    serve_request m req =
      ([Event.logInfo (requestLogLine req),
        Event.respond ⟨404, [("Content-Type", text_plain_default)], RespBody.ofString "404"⟩
          req.respond_result],
       req.respond_result) := by
  refine serve_request_unmatched m req ?_ ?_ ?_ ?_ <;> intro hc
  exacts [h (Or.inl hc), h (Or.inr (Or.inl hc)), h (Or.inr (Or.inr (Or.inl hc))),
    h (Or.inr (Or.inr (Or.inr hc)))]

/-- Witness for C7: `GET /unknown` is answered by the 404 handler. -/
theorem router_unmatched_returns_404_witness :
    serve_request modelA reqUnknown =
      ([Event.logInfo (requestLogLine reqUnknown),
        Event.respond ⟨404, [("Content-Type", text_plain_default)], RespBody.ofString "404"⟩
          reqUnknown.respond_result],
       reqUnknown.respond_result) :=
  router_unmatched_returns_404 modelA reqUnknown (by decide)

/-- C8: for every `POST /api/search` request whose transport body read
fails, the handler responds 500 with body `500`, logs the transport error
with its cause, performs exactly one read attempt and one response (no
retry), and never acquires the Index mutex. -/
theorem api_search_read_failure_responds_500 (m : Model) (req : Request) (err : String)
    (hm : req.method = Method.Post) (hu : req.url = "/api/search")
    (hb : req.read_body = Except.error err) :
    serve_request m req =
      ([Event.logInfo (requestLogLine req),
        Event.readBody (Except.error err),
        Event.logErr ("ERROR: could not read the body of the request: " ++ err),
        Event.respond ⟨500, [("Content-Type", text_plain_default)], RespBody.ofString "500"⟩
          req.respond_result],
       req.respond_result) ∧
    Event.lock ∉ (serve_request m req).1 := by
  have htr : serve_request m req =
      ([Event.logInfo (requestLogLine req),
        Event.readBody (Except.error err),
        Event.logErr ("ERROR: could not read the body of the request: " ++ err),
        Event.respond ⟨500, [("Content-Type", text_plain_default)], RespBody.ofString "500"⟩
          req.respond_result],
       req.respond_result) := by
    rw [serve_request_post_search m req hm hu, serve_api_search_read_fail_eq m req err hb]
    rfl
  refine ⟨htr, ?_⟩
  rw [htr]; simp

/-- Witness for C8: the request whose body read fails with
`connection reset by peer`. -/
theorem api_search_read_failure_responds_500_witness :
    serve_request modelA reqSearchReadFail =
      ([Event.logInfo (requestLogLine reqSearchReadFail),
        Event.readBody (Except.error "connection reset by peer"),
        Event.logErr ("ERROR: could not read the body of the request: " ++
          "connection reset by peer"),
        Event.respond ⟨500, [("Content-Type", text_plain_default)], RespBody.ofString "500"⟩
          reqSearchReadFail.respond_result],
       reqSearchReadFail.respond_result) ∧
    Event.lock ∉ (serve_request modelA reqSearchReadFail).1 :=
  api_search_read_failure_responds_500 modelA reqSearchReadFail "connection reset by peer"
    rfl rfl rfl

/-- C10: the router matches the full url string including any query
component, so a known route with a query string appended (any url
containing a question mark) falls through to the 404 handler. -/
theorem query_string_url_falls_through_404 (m : Model) (req : Request)
    (h : '?' ∈ req.url.data) :
    serve_request m req =
      ([Event.logInfo (requestLogLine req),
        Event.respond ⟨404, [("Content-Type", text_plain_default)], RespBody.ofString "404"⟩
          req.respond_result],
       req.respond_result) := by
  refine serve_request_unmatched m req ?_ ?_ ?_ ?_
  · rintro ⟨-, hu⟩; rw [hu] at h; exact absurd h (by decide)
  · rintro ⟨-, hu⟩; rw [hu] at h; exact absurd h (by decide)
  · rintro ⟨-, hu⟩; rw [hu] at h; exact absurd h (by decide)
  · rintro ⟨-, hu | hu⟩ <;> (rw [hu] at h; exact absurd h (by decide))

/-- Witness for C10: `GET /api/stats?x=1` is answered by the 404 handler,
not the stats handler. -/
theorem query_string_url_falls_through_404_witness :
    serve_request modelA reqStatsQuery =
      ([Event.logInfo (requestLogLine reqStatsQuery),
        Event.respond ⟨404, [("Content-Type", text_plain_default)], RespBody.ofString "404"⟩
          reqStatsQuery.respond_result],
       reqStatsQuery.respond_result) :=
  query_string_url_falls_through_404 modelA reqStatsQuery (by decide)

/-- C2: every failure surfaced while handling one request (the handler's
`io::Result`, in particular an I/O error while writing the response) is
caught at the dispatch boundary, logged, and discarded: the loop serves
every request of the stream exactly once regardless of earlier failures;
it terminates only when the request stream itself ends (the listening
socket has failed), reported as a fatal error, and a bind failure is
likewise fatal. -/
theorem server_loop_isolates_request_failures (address : String) (m : Model)
    (reqs : List Request) (e : String) :
    (start address m (Except.ok ⟨reqs⟩)).2 = Except.error () ∧
    (respondEvents (start address m (Except.ok ⟨reqs⟩)).1).length = reqs.length ∧
    ((start address m (Except.ok ⟨reqs⟩)).1).getLast? =
      some (Event.logErr "ERROR: the server socket has shutdown") ∧
    (∀ req ∈ reqs, ∀ err, (serve_request m req).2 = Except.error err →
      Event.logErr ("ERROR: could not serve the response: " ++ err) ∈ serveLoop m reqs) ∧
    start address m (Except.error e) =
      ([Event.logErr ("ERROR: could not start HTTP server at " ++ address ++ ": " ++ e)],
       Except.error ()) := by
  refine ⟨rfl, ?_, ?_, ?_, rfl⟩
  · simp [start, respondEvents_logInfo_cons, respondEvents_append, respondEvents_logErr,
      respondEvents_serveLoop_length]
  · show (Event.logInfo _ :: (serveLoop m reqs ++ [Event.logErr _])).getLast? = _
    rw [← List.cons_append]
    exact List.getLast?_concat _
  · intro req hmem err hfail
    exact serveLoop_logs_failure m reqs req err hmem hfail

/-- C4 counterexample: on a successful `POST /api/search` request the
mutex guard is dropped only at the end of the handler, after
`request.respond` has written the response to the socket, so the Shared
Index Handle is retained across that network I/O boundary — refuting the
claim that it is never retained while writing the response. -/
theorem lock_held_across_response_write :
    respondWhileLockedFrom 0 (serve_request modelA reqSearchOk).1 = true := by decide

/-- C4 as amended: in every handler the mutex acquisitions are balanced
(released at the end of the operation on all paths), never re-entrant,
never held while reading the request body, and acquired only after all
fallible parsing succeeded (a lock implies either a search request whose
body was read and UTF-8 decoded, or a stats request which parses
nothing); the stats handler releases the handle before writing its
response, but the search handler retains it until handler exit, across
the response write. -/
theorem lock_discipline_amended (m : Model) (req : Request) :
    balancedFrom 0 (serve_request m req).1 = true ∧
    noReentrantFrom 0 (serve_request m req).1 = true ∧
    readWhileLockedFrom 0 (serve_request m req).1 = false ∧
    (Event.lock ∈ (serve_request m req).1 →
      (req.method = Method.Post ∧ req.url = "/api/search" ∧
        ∃ buf body, req.read_body = Except.ok buf ∧ utf8Decode? buf = some body) ∨
      (req.method = Method.Get ∧ req.url = "/api/stats")) ∧
    respondWhileLockedFrom 0 (serve_api_stats m req).1 = false ∧
    (∀ buf body, req.read_body = Except.ok buf → utf8Decode? buf = some body →
      req.method = Method.Post → req.url = "/api/search" →
      respondWhileLockedFrom 0 (serve_request m req).1 = true) :=
  ⟨(serve_request_locks_balanced m req).1,
   (serve_request_locks_balanced m req).2.1,
   (serve_request_locks_balanced m req).2.2,
   serve_request_lock_requires_parse m req,
   serve_api_stats_responds_after_unlock m req,
   fun buf body hb hd hm hu =>
     serve_api_search_responds_while_locked m req buf body hm hu hb hd⟩

/-- C5 counterexample: the 400 response to a `POST /api/search` request
with a non-UTF-8 body is a response on an API route that does not carry a
`Content-Type: application/json` header — refuting the claim that every
API-route response does. -/
theorem api_error_response_not_json :
    ¬ (∀ p ∈ respondEvents (serve_request modelA reqSearchBadUtf8).1,
        ("Content-Type", "application/json") ∈ p.1.headers) := by decide

/-- C5 as amended: every response carries a status from 200/400/404/500;
every 200 response on an API route carries `Content-Type:
application/json`; every non-200 response carries the `from_string`
default text/plain content type (including the 400/500 error responses of
`/api/search`); every static-route response carries the fixed content
type of its asset. -/
theorem response_status_and_content_types (m : Model) (req : Request) :
    ∀ p ∈ respondEvents (serve_request m req).1, ResponseContract req p := by
  obtain ⟨meth, url, rb, rr⟩ := req
  unfold serve_request
  split_ifs with h1 h2 h3 h4
  case pos =>
    obtain ⟨hm, hu⟩ := h1
    subst hm; subst hu
    cases rb with
    | error e =>
      intro p hp
      simp [serve_api_search, serve_500, respondTo, prependEvents,
        respondEvents_logInfo_cons, respondEvents] at hp
      subst hp
      simp [ResponseContract, Response.from_string, HttpResponse.with_status_code,
        text_plain_default]
    | ok buf =>
      cases hd : utf8Decode? buf with
      | none =>
        intro p hp
        simp [serve_api_search, hd, serve_400, respondTo, prependEvents,
          respondEvents_logInfo_cons, respondEvents] at hp
        subst hp
        simp [ResponseContract, Response.from_string, HttpResponse.with_status_code,
          text_plain_default]
      | some body =>
        intro p hp
        simp [serve_api_search, hd, serde_json_to_string_results, respondTo,
          prependEvents, appendEvents, from_string_json_header,
          respondEvents_logInfo_cons, respondEvents] at hp
        subst hp
        simp [ResponseContract]
  case pos =>
    obtain ⟨hm, hu⟩ := h2
    subst hm; subst hu
    intro p hp
    simp [serve_api_stats_eq, prependEvents, respondEvents_logInfo_cons, respondEvents] at hp
    subst hp
    simp [ResponseContract]
  case pos =>
    obtain ⟨hm, hu⟩ := h3
    subst hm; subst hu
    intro p hp
    simp [serve_bytes_eq, prependEvents, respondEvents_logInfo_cons, respondEvents] at hp
    subst hp
    simp [ResponseContract]
  case pos =>
    obtain ⟨hm, hu⟩ := h4
    subst hm
    intro p hp
    simp [serve_bytes_eq, prependEvents, respondEvents_logInfo_cons, respondEvents] at hp
    subst hp
    rcases hu with hu | hu <;> subst hu <;> simp [ResponseContract]
  case neg =>
    intro p hp
    simp [serve_404, respondTo, prependEvents, respondEvents_logInfo_cons, respondEvents] at hp
    subst hp
    simp only [ResponseContract]
    refine ⟨Or.inr (Or.inr (Or.inl rfl)), ?_, fun _ => rfl, ?_, ?_⟩
    · intro h200
      simp [Response.from_string, HttpResponse.with_status_code] at h200
    · intro hc; exact absurd hc h3
    · intro hc; exact absurd hc h4

/-- The sole response written for the concrete stats request, used as the
witness instance of the response contract. -/
def pStats : HttpResponse × Except String Unit :=
  (⟨200, [("Content-Type", "application/json")], RespBody.ofString (statsJson 1 2)⟩,
   Except.ok ())

/-- Witness for the amended C5: the stats response of the concrete model
satisfies the response contract. -/
theorem response_status_and_content_types_witness :
    pStats ∈ respondEvents (serve_request modelA reqStats).1 ∧
    ResponseContract reqStats pStats :=
  ⟨by decide, response_status_and_content_types modelA reqStats pStats (by decide)⟩

/-- C9: `GET /` and `GET /index.html` produce responses with byte-identical
bodies (the same embedded HTML payload) and identical headers with content
type `text/html; charset=utf-8`, and `GET /index.js` serves the embedded
script payload with content type `text/javascript; charset=utf-8`; the
payloads are build-time constants, with no filesystem access. -/
theorem static_routes_serve_embedded_assets (m : Model) (r1 r2 r3 : Request)
    (h1m : r1.method = Method.Get) (h1u : r1.url = "/")
    (h2m : r2.method = Method.Get) (h2u : r2.url = "/index.html")
    (h3m : r3.method = Method.Get) (h3u : r3.url = "/index.js") :
    respondEvents (serve_request m r1).1 =
      [(⟨200, [("Content-Type", "text/html; charset=utf-8")],
         RespBody.ofBytes index_html_bytes⟩, r1.respond_result)] ∧
    respondEvents (serve_request m r2).1 =
      [(⟨200, [("Content-Type", "text/html; charset=utf-8")],
         RespBody.ofBytes index_html_bytes⟩, r2.respond_result)] ∧
    respondEvents (serve_request m r3).1 =
      [(⟨200, [("Content-Type", "text/javascript; charset=utf-8")],
         RespBody.ofBytes index_js_bytes⟩, r3.respond_result)] := by
  refine ⟨?_, ?_, ?_⟩
  · rw [serve_request_get_html m r1 h1m (Or.inl h1u)]; rfl
  · rw [serve_request_get_html m r2 h2m (Or.inr h2u)]; rfl
  · rw [serve_request_get_js m r3 h3m h3u]; rfl

/-- Witness for C9: the three concrete static requests. -/
theorem static_routes_serve_embedded_assets_witness :
    respondEvents (serve_request modelA reqRoot).1 =
      [(⟨200, [("Content-Type", "text/html; charset=utf-8")],
         RespBody.ofBytes index_html_bytes⟩, reqRoot.respond_result)] ∧
    respondEvents (serve_request modelA reqIndexHtml).1 =
      [(⟨200, [("Content-Type", "text/html; charset=utf-8")],
         RespBody.ofBytes index_html_bytes⟩, reqIndexHtml.respond_result)] ∧
    respondEvents (serve_request modelA reqIndexJs).1 =
      [(⟨200, [("Content-Type", "text/javascript; charset=utf-8")],
         RespBody.ofBytes index_js_bytes⟩, reqIndexJs.respond_result)] :=
  static_routes_serve_embedded_assets modelA reqRoot reqIndexHtml reqIndexJs
    rfl rfl rfl rfl rfl rfl

end Seroost
